import Mathlib

/-!
Verification of the rendering-context core (`src/rendering.rs`) of the
`verso` repository: a shallow embedding of `gl_config_picker` and of the
`RenderingContext` operations (`create`, `resize`, `present`, `size`,
`size2d`), with the platform display and GPU driver modelled as injected
capabilities, and proofs of the specified properties.
-/

namespace Verso

/-- Observable attributes of a glutin `Config` (a platform graphics
configuration).  `id` distinguishes the otherwise-opaque platform handles;
`supportsTransparency` models `GlConfig::supports_transparency`
(`Option<bool>` in the source) and `numSamples` models
`GlConfig::num_samples` (`u8`). -/
structure GlConfig where
  id : Nat
  supportsTransparency : Option Bool
  numSamples : Nat
  deriving Repr, DecidableEq

/-- The condition of the branch inside the `reduce` closure of
`gl_config_picker`:
`config.supports_transparency().unwrap_or(false) & !accum.supports_transparency().unwrap_or(false)
 || config.num_samples() > accum.num_samples()`. -/
def candidateWins (accum config : GlConfig) : Bool :=
  let transparency_check :=
    config.supportsTransparency.getD false && !(accum.supportsTransparency.getD false)
  transparency_check || decide (config.numSamples > accum.numSamples)

/-- The closure passed to `Iterator::reduce` in `gl_config_picker`: keep the
candidate `config` when the branch condition holds, else keep `accum`. -/
def pickStep (accum config : GlConfig) : GlConfig :=
  if candidateWins accum config then config else accum

/-- Rust's `Iterator::reduce`: `none` on an empty iterator, otherwise a left
fold of the tail with the first element as the initial accumulator. -/
def iterReduce {α : Type} (f : α → α → α) : List α → Option α
  | [] => none
  | x :: xs => some (xs.foldl f x)

/-- The selector `gl_config_picker`.  The source ends with `.unwrap()`, which panics on an
empty iterator; the panic is modelled as `none`, a success as `some`. -/
def gl_config_picker (configs : List GlConfig) : Option GlConfig :=
  iterReduce pickStep configs

/-- A physical pixel size (`dpi::PhysicalSize<u32>`): width and height are
`u32` values, modelled as naturals. -/
structure PhysicalSize where
  width : Nat
  height : Nat
  deriving Repr, DecidableEq

/-- A WebRender-style 2D size (`euclid::Size2D<u32, DevicePixel>`). -/
structure Size2D where
  width : Nat
  height : Nat
  deriving Repr, DecidableEq

/-- The graphics API profile requested by a set of context attributes:
`core` for `ContextAttributesBuilder::new().build(..)` (glutin's default,
an OpenGL core context), `gles` for `ContextApi::Gles(None)`, `legacy` for
`ContextApi::OpenGl(Some(Version::new(2, 1)))`. -/
inductive ContextApiReq
  | core
  | gles
  | legacy
  deriving Repr, DecidableEq

/-- Context attributes built by `ContextAttributesBuilder` against the raw
window handle (which is `None` on platforms without handle support). -/
structure ContextAttributes where
  api : ContextApiReq
  rawWindowHandle : Option Nat
  deriving Repr, DecidableEq

/-- The API a created context actually bound, as answered by
`context_api()`: `ContextApi::OpenGl(_)` or `ContextApi::Gles(_)`. -/
inductive BoundApi
  | openGl
  | gles
  deriving Repr, DecidableEq

/-- A context handle returned by the platform display: not yet current when
created, possibly current once bound.  `id` distinguishes handles, `api` is
what `context_api()` reports. -/
structure GlContext where
  id : Nat
  api : BoundApi
  deriving Repr, DecidableEq

/-- A drawable window-surface handle (`Surface<WindowSurface>`). -/
structure GlSurface where
  id : Nat
  deriving Repr, DecidableEq

/-- The loaded graphics function-pointer table: `gleam::gl::GlFns` for an
OpenGL context, `gleam::gl::GlesFns` for a GLES context. -/
inductive FnTable
  | glFns
  | glesFns
  deriving Repr, DecidableEq

/-- Which entry-point table `create` loads, by the bound context API:
`GlFns::load_with` under `ContextApi::OpenGl(_)`, `GlesFns::load_with`
under `ContextApi::Gles(_)`. -/
def loadedTable : BoundApi → FnTable
  | .openGl => .glFns
  | .gles => .glesFns

/-- An observable platform call issued by the rendering core, recorded in
order of issue. -/
inductive Event
  | attemptCreateContext (attrs : ContextAttributes)
  | createWindowSurface
  | makeCurrent (surface : GlSurface)
  | setSwapInterval (surface : GlSurface) (interval : Nat)
  | logVsyncError
  | loadFnTable (t : FnTable)
  | resizeDrawable (surface : GlSurface) (width height : Nat)
  | viewport (x y w h : Int)
  | swapBuffers (surface : GlSurface)
  deriving Repr, DecidableEq

/-- The observable result of a call that may return a value, return an error
value (`Result::Err`), or abort the process (`unwrap` / `expect` panic). -/
inductive Outcome (ε α : Type)
  | ok : α → Outcome ε α
  | err : ε → Outcome ε α
  | panicked : String → Outcome ε α
  deriving Repr, DecidableEq

/-- True exactly when the outcome is a returned error value (not a success
and not a panic). -/
def Outcome.isErr {ε α : Type} : Outcome ε α → Bool
  | .err _ => true
  | _ => false

/-- True exactly when the outcome is a returned success value. -/
def Outcome.isOk {ε α : Type} : Outcome ε α → Bool
  | .ok _ => true
  | _ => false

/-- The platform display, window system and GPU driver, modelled as injected
capabilities; each `Except String` result stands for the corresponding
fallible platform call. -/
structure Platform where
  rawWindowHandle : Option Nat
  createContext : ContextAttributes → Except String GlContext
  buildSurfaceAttributes : Except String Nat
  createWindowSurface : Nat → Except String GlSurface
  makeCurrent : GlContext → GlSurface → Except String Unit
  setSwapInterval : GlSurface → Nat → Except String Unit
  swapBuffers : GlSurface → GlContext → Except String Unit

/-- The long-lived rendering context produced by `create`: the (current)
context handle, the cached logical size (`Cell<PhysicalSize<u32>>`), and
the loaded function table. -/
structure RenderingContext where
  context : GlContext
  size : PhysicalSize
  gl : FnTable
  deriving Repr, DecidableEq

/-- The three-attempt fallback chain at the start of
`RenderingContext::create`: try the default (core) attributes, on failure
the GLES attributes, on failure the legacy 2.1 attributes; the nested
`unwrap_or_else` calls mean a later attempt runs only when every earlier
one failed.  Returns the first successfully created context (or `none`)
together with the trace of attempts actually made. -/
def attemptChain (p : Platform) : Option GlContext × List Event :=
  let raw_window_handle := p.rawWindowHandle
  let context_attributes : ContextAttributes := ⟨.core, raw_window_handle⟩
  let fallback_context_attributes : ContextAttributes := ⟨.gles, raw_window_handle⟩
  let legacy_context_attributes : ContextAttributes := ⟨.legacy, raw_window_handle⟩
  match p.createContext context_attributes with
  | .ok nc => (some nc, [.attemptCreateContext context_attributes])
  | .error _ =>
    match p.createContext fallback_context_attributes with
    | .ok nc =>
      (some nc,
       [.attemptCreateContext context_attributes,
        .attemptCreateContext fallback_context_attributes])
    | .error _ =>
      match p.createContext legacy_context_attributes with
      | .ok nc =>
        (some nc,
         [.attemptCreateContext context_attributes,
          .attemptCreateContext fallback_context_attributes,
          .attemptCreateContext legacy_context_attributes])
      | .error _ =>
        (none,
         [.attemptCreateContext context_attributes,
          .attemptCreateContext fallback_context_attributes,
          .attemptCreateContext legacy_context_attributes])

/-- The tail of `RenderingContext::create` after a not-current context was
obtained: build surface attributes (`expect`), create the window surface
(`unwrap`), make the context current (`unwrap`), try to set vsync (failure
logged and swallowed), then load the function table matching
`context_api()`.  All failure paths in the source are panics, never
returned error values. -/
def createRest (p : Platform) (size : PhysicalSize)
    (not_current_gl_context : GlContext) (tr : List Event) :
    Outcome String (RenderingContext × GlSurface) × List Event :=
  match p.buildSurfaceAttributes with
  | .error _ => (.panicked "Failed to build surface attributes", tr)
  | .ok attrs =>
    match p.createWindowSurface attrs with
    | .error _ =>
      (.panicked "called Result::unwrap on an Err value",
       tr ++ [.createWindowSurface])
    | .ok surface =>
      match p.makeCurrent not_current_gl_context surface with
      | .error _ =>
        (.panicked "called Result::unwrap on an Err value",
         tr ++ [.createWindowSurface, .makeCurrent surface])
      | .ok _ =>
        let context := not_current_gl_context
        let vsyncEvents : List Event :=
          match p.setSwapInterval surface 1 with
          | .error _ => [.setSwapInterval surface 1, .logVsyncError]
          | .ok _ => [.setSwapInterval surface 1]
        let gl := loadedTable context.api
        (.ok (⟨context, size, gl⟩, surface),
         tr ++ [.createWindowSurface, .makeCurrent surface]
            ++ vsyncEvents ++ [.loadFnTable gl])

/-- `RenderingContext::create`: run the fallback chain (panicking with
"failed to create context" when all three attempts fail), then the
surface/bind/vsync/function-table tail. -/
def RenderingContext.create (p : Platform) (size : PhysicalSize) :
    Outcome String (RenderingContext × GlSurface) × List Event :=
  match attemptChain p with
  | (none, tr) => (.panicked "failed to create context", tr)
  | (some nc, tr) => createRest p size nc tr

/-- The profile of each context-creation attempt recorded in a trace, in
order of issue. -/
def attempts (tr : List Event) : List ContextApiReq :=
  tr.filterMap fun e =>
    match e with
    | .attemptCreateContext attrs => some attrs.api
    | _ => none

/-- `NonZeroU32::new`: `None` exactly on zero. -/
def nonZeroU32 (n : Nat) : Option Nat :=
  if n = 0 then none else some n

/-- The `u32 as i32` two's-complement cast used for the viewport call. -/
def u32AsI32 (n : Nat) : Int :=
  if n % 2 ^ 32 < 2 ^ 31 then ((n % 2 ^ 32 : Nat) : Int)
  else ((n % 2 ^ 32 : Nat) : Int) - 2 ^ 32

/-- `RenderingContext::resize`: resize the native drawable to the new
dimensions wrapped in `NonZeroU32::new(..).unwrap()` (panicking before any
platform call when a dimension is 0), then set the GPU viewport.  The
source takes `&self` and never writes the size cache, so the returned
receiver is unchanged. -/
def RenderingContext.resize (ctx : RenderingContext) (surface : GlSurface)
    (size : PhysicalSize) :
    Outcome Empty Unit × RenderingContext × List Event :=
  match nonZeroU32 size.width with
  | none => (.panicked "called Option::unwrap on a None value", ctx, [])
  | some w =>
    match nonZeroU32 size.height with
    | none => (.panicked "called Option::unwrap on a None value", ctx, [])
    | some h =>
      (.ok (), ctx,
       [.resizeDrawable surface w h,
        .viewport 0 0 (u32AsI32 size.width) (u32AsI32 size.height)])

/-- `RenderingContext::present`: make this context current on `surface`,
then swap buffers; each step's platform error propagates through `?`. -/
def RenderingContext.present (p : Platform) (ctx : RenderingContext)
    (surface : GlSurface) : Except String Unit × List Event :=
  match p.makeCurrent ctx.context surface with
  | .error e => (.error e, [.makeCurrent surface])
  | .ok _ =>
    match p.swapBuffers surface ctx.context with
    | .error e => (.error e, [.makeCurrent surface, .swapBuffers surface])
    | .ok _ => (.ok (), [.makeCurrent surface, .swapBuffers surface])

/-- `RenderingContext::size2d`: the cached size repackaged as a `Size2D`. -/
def RenderingContext.size2d (ctx : RenderingContext) : Size2D :=
  ⟨ctx.size.width, ctx.size.height⟩

/-- A concrete mock platform whose context creation fails for every profile
and whose other calls succeed. -/
def allFailCreate : Platform where
  rawWindowHandle := some 0
  createContext := fun _ => .error "context creation refused"
  buildSurfaceAttributes := .ok 0
  createWindowSurface := fun _ => .ok ⟨0⟩
  makeCurrent := fun _ _ => .ok ()
  setSwapInterval := fun _ _ => .ok ()
  swapBuffers := fun _ _ => .ok ()

/-- A concrete mock platform whose context creation fails for the core and
GLES profiles but succeeds for the legacy 2.1 profile. -/
def legacyOnly : Platform where
  rawWindowHandle := some 0
  createContext := fun attrs =>
    match attrs.api with
    | .legacy => .ok ⟨7, .openGl⟩
    | _ => .error "profile unsupported"
  buildSurfaceAttributes := .ok 0
  createWindowSurface := fun _ => .ok ⟨1⟩
  makeCurrent := fun _ _ => .ok ()
  setSwapInterval := fun _ _ => .ok ()
  swapBuffers := fun _ _ => .ok ()

/-- A concrete mock platform that creates a core context but refuses to
create a window surface. -/
def surfaceRefused : Platform where
  rawWindowHandle := some 0
  createContext := fun _ => .ok ⟨3, .openGl⟩
  buildSurfaceAttributes := .ok 0
  createWindowSurface := fun _ => .error "drawable refused"
  makeCurrent := fun _ _ => .ok ()
  setSwapInterval := fun _ _ => .ok ()
  swapBuffers := fun _ _ => .ok ()

/-- A concrete mock platform where everything succeeds except the vsync
(set-swap-interval) request. -/
def vsyncRefused : Platform where
  rawWindowHandle := some 0
  createContext := fun _ => .ok ⟨5, .gles⟩
  buildSurfaceAttributes := .ok 0
  createWindowSurface := fun _ => .ok ⟨2⟩
  makeCurrent := fun _ _ => .ok ()
  setSwapInterval := fun _ _ => .error "swap interval unsupported"
  swapBuffers := fun _ _ => .ok ()

end Verso

namespace Verso

/-- C2: on every non-empty input, `gl_config_picker` is the left-to-right
fold of the switch rule "candidate wins iff (its transparency holds and the
best's does not) or its sample count is strictly greater", ties keeping the
earlier-seen accumulator; on `[A(samples 4, transparency), B(samples 4,
transparency)]` it returns `A`. -/
theorem gl_config_picker_fold (c : GlConfig) (cs : List GlConfig) :
    gl_config_picker (c :: cs) =
      some (cs.foldl (fun accum config =>
        if (config.supportsTransparency.getD false
              ∧ ¬ accum.supportsTransparency.getD false)
            ∨ config.numSamples > accum.numSamples
        then config else accum) c)
    ∧ gl_config_picker [⟨0, some true, 4⟩, ⟨1, some true, 4⟩] = some ⟨0, some true, 4⟩ := by
  constructor
  · unfold gl_config_picker iterReduce
    have hstep : pickStep = fun accum config : GlConfig =>
        if (config.supportsTransparency.getD false
              ∧ ¬ accum.supportsTransparency.getD false)
            ∨ config.numSamples > accum.numSamples
        then config else accum := by
      funext a b
      unfold pickStep candidateWins
      by_cases h : (b.supportsTransparency.getD false
          ∧ ¬ a.supportsTransparency.getD false) ∨ b.numSamples > a.numSamples
      · rw [if_pos h, if_pos]
        simpa [Bool.and_eq_true, Bool.or_eq_true, Bool.not_eq_true',
          Bool.not_eq_true, decide_eq_true_iff] using h
      · rw [if_neg h, if_neg]
        simpa [Bool.and_eq_true, Bool.or_eq_true, Bool.not_eq_true',
          Bool.not_eq_true, decide_eq_true_iff] using h
    rw [hstep]
  · decide

/-- C6: `gl_config_picker` on an empty sequence of configurations fails
(yields no configuration): it never returns a default configuration. -/
theorem gl_config_picker_empty_fails :
    gl_config_picker [] = none ∧ ∀ c : GlConfig, gl_config_picker [] ≠ some c := by
  exact ⟨rfl, fun c h => Option.noConfusion h⟩

/-- C10: a configuration whose transparency support is unknown (`none`) is
treated by the picker's switch rule exactly like one that reports `some
false`: as candidate it can only win by the strict sample-count rule (never
by the transparency rule), and as current best it does not stop a
transparency-supporting candidate from winning. -/
theorem picker_unknown_transparency_as_false (a c : GlConfig) :
    (c.supportsTransparency = none →
        candidateWins a c
          = candidateWins a { c with supportsTransparency := some false }
        ∧ candidateWins a c = decide (c.numSamples > a.numSamples))
    ∧ (a.supportsTransparency = none →
        candidateWins a c
          = candidateWins { a with supportsTransparency := some false } c
        ∧ (c.supportsTransparency = some true → candidateWins a c = true)) := by
  constructor
  · intro h
    constructor
    · simp [candidateWins, h]
    · simp [candidateWins, h]
  · intro h
    constructor
    · simp [candidateWins, h]
    · intro hc
      simp [candidateWins, h, hc]

/-- Witness for `C10` at concrete configurations: an unknown-transparency
candidate with no sample advantage loses, and an unknown-transparency best
is displaced by a transparency-supporting candidate. -/
theorem picker_unknown_transparency_as_false_witness :
    candidateWins ⟨0, some false, 4⟩ ⟨1, none, 4⟩ = decide ((4:Nat) > 4)
    ∧ candidateWins ⟨2, none, 4⟩ ⟨3, some true, 1⟩ = true := by
  constructor
  · exact ((picker_unknown_transparency_as_false ⟨0, some false, 4⟩ ⟨1, none, 4⟩).1 rfl).2
  · exact ((picker_unknown_transparency_as_false ⟨2, none, 4⟩ ⟨3, some true, 1⟩).2 rfl).2 rfl

end Verso

namespace Verso

/-- Helper: the tail of `create` issues no further context-creation
attempts, so the attempts recorded in its trace are those of the chain. -/
theorem attempts_createRest (p : Platform) (sz : PhysicalSize)
    (nc : GlContext) (tr : List Event) :
    attempts (createRest p sz nc tr).2 = attempts tr := by
  cases hb : p.buildSurfaceAttributes with
  | error e => simp [createRest, hb]
  | ok attrs =>
    cases hs : p.createWindowSurface attrs with
    | error e => simp [createRest, hb, hs, attempts, List.filterMap_append]
    | ok s =>
      cases hm : p.makeCurrent nc s with
      | error e => simp [createRest, hb, hs, hm, attempts, List.filterMap_append]
      | ok u =>
        cases hv : p.setSwapInterval s 1 with
        | error e =>
          simp [createRest, hb, hs, hm, hv, attempts, List.filterMap_append]
        | ok u2 =>
          simp [createRest, hb, hs, hm, hv, attempts, List.filterMap_append]

/-- C1: create tries the strategies in the fixed order core profile, GLES,
legacy OpenGL 2.1; each later attempt is made only when every earlier one
failed and the first success short-circuits the chain; on a platform whose
creation function fails for core and GLES but succeeds for legacy, create
yields a rendering context built from the context of the legacy attempt. -/
theorem create_fallback_chain (p : Platform) (size : PhysicalSize)
    (e1 e2 : String) (nc : GlContext) (attrs : Nat) (s : GlSurface)
    (hcore : p.createContext ⟨.core, p.rawWindowHandle⟩ = .error e1)
    (hgles : p.createContext ⟨.gles, p.rawWindowHandle⟩ = .error e2)
    (hlegacy : p.createContext ⟨.legacy, p.rawWindowHandle⟩ = .ok nc)
    (hattrs : p.buildSurfaceAttributes = .ok attrs)
    (hsurf : p.createWindowSurface attrs = .ok s)
    (hmk : p.makeCurrent nc s = .ok ()) :
    (∀ q : Platform, ∀ sz : PhysicalSize,
        attempts (RenderingContext.create q sz).2 =
          if (q.createContext ⟨.core, q.rawWindowHandle⟩).isOk then [.core]
          else if (q.createContext ⟨.gles, q.rawWindowHandle⟩).isOk then
            [.core, .gles]
          else [.core, .gles, .legacy])
    ∧ (RenderingContext.create p size).1
        = .ok (⟨nc, size, loadedTable nc.api⟩, s) := by
  constructor
  · intro q sz
    cases hc : q.createContext ⟨.core, q.rawWindowHandle⟩ with
    | ok nc0 =>
      simp only [RenderingContext.create, attemptChain, hc, attempts_createRest]
      simp [attempts, hc, Except.toBool]
    | error e0 =>
      cases hg : q.createContext ⟨.gles, q.rawWindowHandle⟩ with
      | ok nc1 =>
        simp only [RenderingContext.create, attemptChain, hc, hg,
          attempts_createRest]
        simp [attempts, hc, hg, Except.toBool]
      | error e1 =>
        cases hl : q.createContext ⟨.legacy, q.rawWindowHandle⟩ with
        | ok nc2 =>
          simp only [RenderingContext.create, attemptChain, hc, hg, hl,
            attempts_createRest]
          simp [attempts, hc, hg, hl, Except.toBool]
        | error e2 =>
          simp [RenderingContext.create, attemptChain, hc, hg, hl,
            Except.toBool, attempts]
  · simp [RenderingContext.create, attemptChain, createRest, hcore, hgles,
      hlegacy, hattrs, hsurf, hmk]

/-- Witness for C1: on the concrete legacy-only platform, create succeeds
with the context created by the legacy attempt. -/
theorem create_fallback_chain_witness :
    (RenderingContext.create legacyOnly ⟨800, 600⟩).1
      = .ok (⟨⟨7, .openGl⟩, ⟨800, 600⟩, .glFns⟩, ⟨1⟩) :=
  (create_fallback_chain legacyOnly ⟨800, 600⟩ "profile unsupported"
    "profile unsupported" ⟨7, .openGl⟩ 0 ⟨1⟩ rfl rfl rfl rfl rfl rfl).2

/-- C3 counterexample: on a concrete platform where all three fallback
attempts fail, create does not return an error value (a
ContextCreationError surfaced to the caller); it panics. -/
theorem create_all_fail_not_error_result :
    (RenderingContext.create allFailCreate ⟨800, 600⟩).1.isErr = false
    ∧ (RenderingContext.create allFailCreate ⟨800, 600⟩).1
        = .panicked "failed to create context" :=
  ⟨rfl, rfl⟩

/-- C3 (amended): when all three fallback attempts fail, create panics with
"failed to create context"; no rendering context and no returned error
value reach the caller. -/
theorem create_all_fail_panics (p : Platform) (size : PhysicalSize)
    (hcore : (p.createContext ⟨.core, p.rawWindowHandle⟩).isOk = false)
    (hgles : (p.createContext ⟨.gles, p.rawWindowHandle⟩).isOk = false)
    (hlegacy : (p.createContext ⟨.legacy, p.rawWindowHandle⟩).isOk = false) :
    (RenderingContext.create p size).1 = .panicked "failed to create context"
    ∧ (RenderingContext.create p size).1.isErr = false := by
  obtain ⟨ec, hc⟩ : ∃ e, p.createContext ⟨.core, p.rawWindowHandle⟩ = .error e := by
    cases h : p.createContext ⟨.core, p.rawWindowHandle⟩ with
    | ok v => rw [h] at hcore; simp [Except.toBool] at hcore
    | error e => exact ⟨e, rfl⟩
  obtain ⟨eg, hg⟩ : ∃ e, p.createContext ⟨.gles, p.rawWindowHandle⟩ = .error e := by
    cases h : p.createContext ⟨.gles, p.rawWindowHandle⟩ with
    | ok v => rw [h] at hgles; simp [Except.toBool] at hgles
    | error e => exact ⟨e, rfl⟩
  obtain ⟨el, hl⟩ : ∃ e, p.createContext ⟨.legacy, p.rawWindowHandle⟩ = .error e := by
    cases h : p.createContext ⟨.legacy, p.rawWindowHandle⟩ with
    | ok v => rw [h] at hlegacy; simp [Except.toBool] at hlegacy
    | error e => exact ⟨e, rfl⟩
  constructor <;>
    simp [RenderingContext.create, attemptChain, hc, hg, hl, Outcome.isErr]

/-- Witness for C3 (amended) on the concrete all-failing platform. -/
theorem create_all_fail_panics_witness :
    (RenderingContext.create allFailCreate ⟨640, 480⟩).1
      = .panicked "failed to create context"
    ∧ (RenderingContext.create allFailCreate ⟨640, 480⟩).1.isErr = false :=
  create_all_fail_panics allFailCreate ⟨640, 480⟩ rfl rfl rfl

/-- C7 counterexample: on a concrete platform that refuses the window
surface, create does not surface an error result (a SurfaceCreationError)
to the caller; it panics on the unwrap. -/
theorem create_surface_refused_not_error_result :
    (RenderingContext.create surfaceRefused ⟨800, 600⟩).1.isErr = false
    ∧ (RenderingContext.create surfaceRefused ⟨800, 600⟩).1
        = .panicked "called Result::unwrap on an Err value" :=
  ⟨rfl, rfl⟩

/-- C7 (amended): when a context was obtained but the platform refuses to
create the window surface, create panics on the unwrap of the
surface-creation result; no error value is returned to the caller. -/
theorem create_surface_refused_panics (p : Platform) (size : PhysicalSize)
    (nc : GlContext) (attrs : Nat) (e : String)
    (hchain : (attemptChain p).1 = some nc)
    (hattrs : p.buildSurfaceAttributes = .ok attrs)
    (hsurf : p.createWindowSurface attrs = .error e) :
    (RenderingContext.create p size).1
      = .panicked "called Result::unwrap on an Err value"
    ∧ (RenderingContext.create p size).1.isErr = false := by
  unfold RenderingContext.create
  cases hch : attemptChain p with
  | mk onc tr =>
    rw [hch] at hchain
    have honc : onc = some nc := hchain
    subst honc
    simp [createRest, hattrs, hsurf, Outcome.isErr]

/-- Witness for C7 (amended) on the concrete surface-refusing platform. -/
theorem create_surface_refused_panics_witness :
    (RenderingContext.create surfaceRefused ⟨640, 480⟩).1
      = .panicked "called Result::unwrap on an Err value"
    ∧ (RenderingContext.create surfaceRefused ⟨640, 480⟩).1.isErr = false :=
  create_surface_refused_panics surfaceRefused ⟨640, 480⟩ ⟨3, .openGl⟩ 0
    "drawable refused" rfl rfl rfl

/-- C8: failure of the set-swap-interval (vsync) request is non-fatal — when
every earlier step of create succeeded, create returns a rendering context
successfully whatever the vsync outcome, and a vsync failure is logged. -/
theorem create_vsync_nonfatal (p : Platform) (size : PhysicalSize)
    (nc : GlContext) (attrs : Nat) (s : GlSurface)
    (hchain : (attemptChain p).1 = some nc)
    (hattrs : p.buildSurfaceAttributes = .ok attrs)
    (hsurf : p.createWindowSurface attrs = .ok s)
    (hmk : p.makeCurrent nc s = .ok ()) :
    (RenderingContext.create p size).1
      = .ok (⟨nc, size, loadedTable nc.api⟩, s)
    ∧ ((p.setSwapInterval s 1).isOk = false →
        Event.logVsyncError ∈ (RenderingContext.create p size).2) := by
  unfold RenderingContext.create
  cases hch : attemptChain p with
  | mk onc tr =>
    rw [hch] at hchain
    have honc : onc = some nc := hchain
    subst honc
    constructor
    · simp [createRest, hattrs, hsurf, hmk]
    · intro hv
      cases hvs : p.setSwapInterval s 1 with
      | ok u => rw [hvs] at hv; simp [Except.toBool] at hv
      | error e =>
        simp [createRest, hattrs, hsurf, hmk, hvs, List.mem_append]

/-- Witness for C8 on the concrete vsync-refusing platform: create still
succeeds and the vsync error is logged. -/
theorem create_vsync_nonfatal_witness :
    (RenderingContext.create vsyncRefused ⟨800, 600⟩).1
      = .ok (⟨⟨5, .gles⟩, ⟨800, 600⟩, .glesFns⟩, ⟨2⟩)
    ∧ Event.logVsyncError ∈ (RenderingContext.create vsyncRefused ⟨800, 600⟩).2 := by
  have h := create_vsync_nonfatal vsyncRefused ⟨800, 600⟩ ⟨5, .gles⟩ 0 ⟨2⟩
    rfl rfl rfl rfl
  exact ⟨h.1, h.2 rfl⟩

/-- C4: present always issues the make-current bind on the target surface
first and attempts the swap only after a successful bind (never when the
bind fails), and it returns an error exactly when the bind step or the
swap step is rejected by the platform. -/
theorem present_bind_then_swap (p : Platform) (ctx : RenderingContext)
    (s : GlSurface) :
    (RenderingContext.present p ctx s).2
      = (if (p.makeCurrent ctx.context s).isOk
         then [.makeCurrent s, .swapBuffers s]
         else [.makeCurrent s])
    ∧ (RenderingContext.present p ctx s).1.isOk
        = ((p.makeCurrent ctx.context s).isOk
            && (p.swapBuffers s ctx.context).isOk) := by
  unfold RenderingContext.present
  cases hm : p.makeCurrent ctx.context s with
  | error e => simp [Except.toBool]
  | ok u =>
    cases hs : p.swapBuffers s ctx.context with
    | error e => simp [hs, Except.toBool]
    | ok u2 => simp [hs, Except.toBool]

/-- Helper: the `u32 as i32` cast of a nonzero `u32` value is nonzero. -/
theorem u32AsI32_ne_zero (n : Nat) (h0 : n ≠ 0) (hlt : n < 2 ^ 32) :
    u32AsI32 n ≠ 0 := by
  unfold u32AsI32
  rw [Nat.mod_eq_of_lt hlt]
  by_cases h : n < 2 ^ 31
  · simp only [if_pos h]
    exact_mod_cast h0
  · simp only [if_neg h]
    intro hc
    have h32 : (n : Int) = 2 ^ 32 := by linarith
    have h32n : n = 2 ^ 32 := by exact_mod_cast h32
    omega

/-- C5: a resize whose new size has width 0 or height 0 fails (panics on the
NonZeroU32 unwrap) before the native drawable-resize and viewport calls are
issued, and an issued viewport call never carries a zero dimension. -/
theorem resize_zero_fails_before_calls (ctx : RenderingContext)
    (surface : GlSurface) (new_size : PhysicalSize) :
    (new_size.width = 0 ∨ new_size.height = 0 →
        (ctx.resize surface new_size).1
          = .panicked "called Option::unwrap on a None value"
        ∧ (ctx.resize surface new_size).2.2 = [])
    ∧ (new_size.width < 2 ^ 32 → new_size.height < 2 ^ 32 →
        ∀ x y w h : Int,
          Event.viewport x y w h ∈ (ctx.resize surface new_size).2.2 →
          w ≠ 0 ∧ h ≠ 0) := by
  constructor
  · intro hz
    unfold RenderingContext.resize
    rcases hz with hw | hh
    · simp [nonZeroU32, hw]
    · cases hnw : nonZeroU32 new_size.width with
      | none => exact ⟨rfl, rfl⟩
      | some w => simp [hnw, nonZeroU32, hh]
  · intro hwlt hhlt x y w h hmem
    by_cases hw : new_size.width = 0
    · unfold RenderingContext.resize at hmem
      simp [nonZeroU32, hw] at hmem
    · by_cases hh : new_size.height = 0
      · unfold RenderingContext.resize at hmem
        simp [nonZeroU32, hw, hh] at hmem
      · unfold RenderingContext.resize at hmem
        simp [nonZeroU32, hw, hh] at hmem
        rcases hmem with ⟨hx, hy, hwv, hhv⟩
        constructor
        · rw [hwv]
          exact u32AsI32_ne_zero new_size.width hw hwlt
        · rw [hhv]
          exact u32AsI32_ne_zero new_size.height hh hhlt

/-- Witness for C5: a concrete zero-width resize panics with an empty
platform-call trace. -/
theorem resize_zero_fails_before_calls_witness :
    ((⟨⟨1, .openGl⟩, ⟨800, 600⟩, .glFns⟩ : RenderingContext).resize
        ⟨0⟩ ⟨0, 600⟩).1
      = .panicked "called Option::unwrap on a None value"
    ∧ ((⟨⟨1, .openGl⟩, ⟨800, 600⟩, .glFns⟩ : RenderingContext).resize
        ⟨0⟩ ⟨0, 600⟩).2.2 = [] :=
  (resize_zero_fails_before_calls ⟨⟨1, .openGl⟩, ⟨800, 600⟩, .glFns⟩
    ⟨0⟩ ⟨0, 600⟩).1 (Or.inl rfl)

/-- C9: resize never modifies the rendering context's cached logical size —
the context after a resize is the context before it, so a size query after
the resize returns the value from before — and size2d is a pure repackaging
of the same cached value; both queries are total. -/
theorem resize_preserves_size (ctx : RenderingContext) (surface : GlSurface)
    (new_size : PhysicalSize) :
    (ctx.resize surface new_size).2.1 = ctx
    ∧ (ctx.resize surface new_size).2.1.size = ctx.size
    ∧ ctx.size2d = ⟨ctx.size.width, ctx.size.height⟩ := by
  have h1 : (ctx.resize surface new_size).2.1 = ctx := by
    unfold RenderingContext.resize
    cases nonZeroU32 new_size.width with
    | none => rfl
    | some w =>
      cases nonZeroU32 new_size.height with
      | none => rfl
      | some h => rfl
  exact ⟨h1, by rw [h1], rfl⟩

end Verso
